import Mathlib

/-!
Shallow embedding of the Cusco traffic micro-simulation (src/ of the
repository) and proofs of the behavioural claims about it.

Numeric values are embedded as exact rationals.  The primitives of
Python's `math` module used by the code (`sqrt`, `atan2`, `cos`, `sin`
and the constant `pi`) are an external library from the simulation's
point of view; they are abstracted as the parameter structure
`MathModel`, and every theorem is stated for an arbitrary model, so it
holds in particular for the real-valued interpretation.  Randomness
(`random.uniform`, `random.choice`, ...) is made explicit: every drawn
value is a parameter of the function that draws it, exactly where the
source calls the random generator.  Wall-clock reads (`time.time()`)
are likewise explicit `tiempo` parameters.
-/

/-- Abstract interface of the `math` primitives used by the source. -/
structure MathModel where
  pi : ℚ
  sqrt : ℚ → ℚ
  atan2 : ℚ → ℚ → ℚ
  cos : ℚ → ℚ
  sin : ℚ → ℚ

/-- `src/enums.py`, `TipoVehiculo`. -/
inductive TipoVehiculo where
  | AUTO
  | COMBI
  | MOTO
  | TAXI
deriving DecidableEq, Repr

instance : Inhabited TipoVehiculo := ⟨TipoVehiculo.AUTO⟩

/-- `src/enums.py`, `EstadoSemaforo`. -/
inductive EstadoSemaforo where
  | ROJO
  | AMARILLO
  | VERDE
deriving DecidableEq, Repr

/-- `src/enums.py`, `DireccionCalle`. -/
inductive DireccionCalle where
  | HORIZONTAL
  | VERTICAL
  | DIAGONAL
deriving DecidableEq, Repr

/-- `src/models.py`, `Punto`: immutable 2D coordinate. -/
structure Punto where
  x : ℚ
  y : ℚ
deriving DecidableEq, Repr

/-- `src/models.py`, `Punto.distancia_a`: Euclidean distance, via the
abstract `sqrt` of the math library. -/
def Punto.distancia_a (M : MathModel) (p otro : Punto) : ℚ :=
  M.sqrt ((p.x - otro.x) ^ 2 + (p.y - otro.y) ^ 2)

/-- `src/models.py`, `Calle`. -/
structure Calle where
  inicio : Punto
  fin : Punto
  ancho : ℤ
  tipo : String
  direccion : DireccionCalle
  velocidad_maxima : ℚ
deriving DecidableEq, Repr

instance : Inhabited Calle :=
  ⟨⟨⟨0, 0⟩, ⟨0, 0⟩, 0, "", DireccionCalle.HORIZONTAL, 0⟩⟩

/-- `src/models.py`, `Calle.punto_en_progreso`: linear interpolation with
the progress clamped to [0, 1]. -/
def Calle.punto_en_progreso (c : Calle) (progreso : ℚ) : Punto :=
  let p := max 0 (min 1 progreso)
  ⟨c.inicio.x + (c.fin.x - c.inicio.x) * p, c.inicio.y + (c.fin.y - c.inicio.y) * p⟩

/-- `src/models.py`, `EstadisticasTrafico`. -/
structure EstadisticasTrafico where
  autos : ℤ := 0
  combis : ℤ := 0
  motos : ℤ := 0
  taxis : ℤ := 0
  promedio_velocidad : ℚ := 0
  congestion : ℚ := 0
  vehiculos_activos : ℤ := 0
  vehiculos_generados : ℤ := 0
deriving DecidableEq, Repr

/-- `src/models.py`, `EstadisticasTrafico.reset`: clears every field
except `vehiculos_generados`, which the source intentionally keeps. -/
def EstadisticasTrafico.reset (e : EstadisticasTrafico) : EstadisticasTrafico :=
  { e with
    autos := 0
    combis := 0
    motos := 0
    taxis := 0
    promedio_velocidad := 0
    congestion := 0
    vehiculos_activos := 0 }

/-- `src/models.py`, `ConfiguracionSimulacion`. -/
structure ConfiguracionSimulacion where
  ancho_pantalla : ℤ := 1600
  alto_pantalla : ℤ := 1000
  fps : ℤ := 60
  max_vehiculos : ℤ := 120
  hora_inicial : ℚ := 8
  narrador_activo : Bool := true
  logging_detallado : Bool := true
deriving DecidableEq, Repr

/-- `src/models.py`, `ConfiguracionSimulacion.validar`. -/
def ConfiguracionSimulacion.validar (c : ConfiguracionSimulacion) : Bool :=
  decide (0 < c.ancho_pantalla) && decide (0 < c.alto_pantalla) &&
  decide (0 < c.fps) && decide (0 < c.max_vehiculos) &&
  (decide (0 ≤ c.hora_inicial) && decide (c.hora_inicial < 24))

/-- `src/constants.py`, `VELOCIDADES_BASE`. -/
def VELOCIDADES_BASE : TipoVehiculo → ℚ
  | TipoVehiculo.AUTO => 5 / 2
  | TipoVehiculo.COMBI => 9 / 5
  | TipoVehiculo.MOTO => 16 / 5
  | TipoVehiculo.TAXI => 2

/-- One time-of-day traffic pattern of `src/constants.py`,
`PATRONES_TRAFICO` (vehicle kinds held as enum values rather than their
string names; `TipoVehiculo[nombre]` resolves them in the source). -/
structure PatronTrafico where
  factor : ℚ
  tipos : List TipoVehiculo
  hora_inicio : ℚ
  hora_fin : ℚ
deriving DecidableEq, Repr

/-- `PATRONES_TRAFICO['mañana']`. -/
def patron_manana : PatronTrafico :=
  { factor := 6 / 5
    tipos := [TipoVehiculo.AUTO, TipoVehiculo.COMBI, TipoVehiculo.TAXI]
    hora_inicio := 6
    hora_fin := 12 }

/-- `PATRONES_TRAFICO['tarde']`. -/
def patron_tarde : PatronTrafico :=
  { factor := 3 / 2
    tipos := [TipoVehiculo.COMBI, TipoVehiculo.AUTO, TipoVehiculo.TAXI]
    hora_inicio := 12
    hora_fin := 18 }

/-- `PATRONES_TRAFICO['mediodia']` (the 18:00-22:00 evening slot). -/
def patron_mediodia : PatronTrafico :=
  { factor := 4 / 5
    tipos := [TipoVehiculo.AUTO, TipoVehiculo.MOTO]
    hora_inicio := 18
    hora_fin := 22 }

/-- `PATRONES_TRAFICO['noche']`. -/
def patron_noche : PatronTrafico :=
  { factor := 2 / 5
    tipos := [TipoVehiculo.TAXI, TipoVehiculo.AUTO]
    hora_inicio := 22
    hora_fin := 6 }

/-- `src/semaforo.py`, `Semaforo`: the mutable state of one traffic
light (rendering-only fields are omitted). -/
structure Semaforo where
  posicion : Punto
  estado : EstadoSemaforo
  tipo : String
  duracion_verde : ℚ
  duracion_rojo : ℚ
  duracion_amarillo : ℚ
  tiempo_cambio : ℚ
deriving DecidableEq, Repr

/-- `src/semaforo.py`, `Semaforo._configurar_tiempos`: the green and red
durations are the values drawn by `random.uniform` (passed here as
`uVerde`, `uRojo`); yellow is the fixed 3. Returns
(verde, rojo, amarillo). -/
def Semaforo.configurar_tiempos (tipo : String) (uVerde uRojo : ℚ) : ℚ × ℚ × ℚ :=
  if tipo = "principal" then (uVerde, uRojo, 3) else (uVerde, uRojo, 3)

/-- Random draws consumed by `Semaforo.__init__`. -/
structure SemaforoDraws where
  uInicial : ℚ
  uVerde : ℚ
  uRojo : ℚ
deriving DecidableEq, Repr

/-- `src/semaforo.py`, `Semaforo.__init__`: starts GREEN, durations from
`_configurar_tiempos`, first deadline `time.time() + uniform(5, 12)`. -/
def Semaforo.init (posicion : Punto) (tipo : String) (tiempo : ℚ) (d : SemaforoDraws) : Semaforo :=
  let t := Semaforo.configurar_tiempos tipo d.uVerde d.uRojo
  { posicion := posicion
    estado := EstadoSemaforo.VERDE
    tipo := tipo
    duracion_verde := t.1
    duracion_rojo := t.2.1
    duracion_amarillo := t.2.2
    tiempo_cambio := tiempo + d.uInicial }

/-- `src/semaforo.py`, `Semaforo.actualizar`: if the current time has
reached the stored deadline, advance VERDE→AMARILLO→ROJO→VERDE and set
the deadline to now plus the duration of the state just entered;
otherwise do nothing. -/
def Semaforo.actualizar (s : Semaforo) (tiempo_actual : ℚ) : Semaforo :=
  if s.tiempo_cambio ≤ tiempo_actual then
    match s.estado with
    | EstadoSemaforo.VERDE =>
        { s with estado := EstadoSemaforo.AMARILLO
                 tiempo_cambio := tiempo_actual + s.duracion_amarillo }
    | EstadoSemaforo.AMARILLO =>
        { s with estado := EstadoSemaforo.ROJO
                 tiempo_cambio := tiempo_actual + s.duracion_rojo }
    | EstadoSemaforo.ROJO =>
        { s with estado := EstadoSemaforo.VERDE
                 tiempo_cambio := tiempo_actual + s.duracion_verde }
  else s

/-- `src/semaforo.py`, `Semaforo.permitir_paso`. -/
def Semaforo.permitir_paso (s : Semaforo) : Bool :=
  s.estado = EstadoSemaforo.VERDE

/-- Specification vocabulary: the successor in the light cycle
GREEN→YELLOW→RED→GREEN. -/
def EstadoSemaforo.siguiente : EstadoSemaforo → EstadoSemaforo
  | EstadoSemaforo.VERDE => EstadoSemaforo.AMARILLO
  | EstadoSemaforo.AMARILLO => EstadoSemaforo.ROJO
  | EstadoSemaforo.ROJO => EstadoSemaforo.VERDE

/-- Specification vocabulary: the configured duration of a given state
of a light. -/
def Semaforo.duracion_de (s : Semaforo) : EstadoSemaforo → ℚ
  | EstadoSemaforo.VERDE => s.duracion_verde
  | EstadoSemaforo.AMARILLO => s.duracion_amarillo
  | EstadoSemaforo.ROJO => s.duracion_rojo

/-- `src/vehiculo.py`, the behaviour profile built by
`Vehiculo._obtener_comportamiento` (numeric traits are the values drawn
by `random.uniform`; the kind-specific flags are booleans). -/
structure Comportamiento where
  paciencia : ℚ
  agresividad : ℚ
  tiempo_reaccion : ℚ
  paradas_frecuentes : Bool := false
  puede_zigzaguear : Bool := false
  busca_pasajeros : Bool := false
deriving DecidableEq, Repr

/-- `src/vehiculo.py`, `Vehiculo._obtener_comportamiento`: the per-kind
dictionary, with the drawn traits passed in. -/
def obtener_comportamiento (tipo : TipoVehiculo)
    (paciencia agresividad tiempo_reaccion : ℚ) : Comportamiento :=
  match tipo with
  | TipoVehiculo.AUTO =>
      { paciencia := paciencia, agresividad := agresividad,
        tiempo_reaccion := tiempo_reaccion }
  | TipoVehiculo.COMBI =>
      { paciencia := paciencia, agresividad := agresividad,
        tiempo_reaccion := tiempo_reaccion, paradas_frecuentes := true }
  | TipoVehiculo.MOTO =>
      { paciencia := paciencia, agresividad := agresividad,
        tiempo_reaccion := tiempo_reaccion, puede_zigzaguear := true }
  | TipoVehiculo.TAXI =>
      { paciencia := paciencia, agresividad := agresividad,
        tiempo_reaccion := tiempo_reaccion, busca_pasajeros := true }

/-- `src/vehiculo.py`, `Vehiculo._obtener_velocidad_maxima`: base speed
of the kind, scaled by the street-category factor and the drawn random
variation `uniform(0.8, 1.2)`. -/
def obtener_velocidad_maxima (tipo : TipoVehiculo) (calle : Calle) (variacion : ℚ) : ℚ :=
  let velocidad_base := VELOCIDADES_BASE tipo
  let factor : ℚ :=
    if calle.tipo = "empedrada" then 6 / 10
    else if calle.tipo = "secundaria" then 8 / 10
    else 1
  velocidad_base * factor * variacion

/-- `src/vehiculo.py`, `Vehiculo`: the mutable state of one vehicle
(rendering-only fields such as the colour are omitted). -/
structure Vehiculo where
  tipo : TipoVehiculo
  posicion : Punto
  calle_actual : Calle
  direccion : ℚ
  velocidad_maxima : ℚ
  velocidad_actual : ℚ
  velocidad_objetivo : ℚ
  ruta : List Calle
  indice_ruta : ℕ
  tiempo_parada : ℚ
  comportamiento : Comportamiento
  carril : ℤ
  tiempo_creacion : ℚ
  distancia_recorrida : ℚ
  cambios_velocidad : ℕ
  tiempo_ultimo_evento : ℚ
deriving DecidableEq, Repr

/-- Random draws consumed by `Vehiculo.__init__` and by the spawner. -/
structure GeneracionDraws where
  intervalo_base : ℚ
  tipoIdx : ℕ
  calleIdx : ℕ
  progreso_inicial : ℚ
  variacion : ℚ
  paciencia : ℚ
  agresividad : ℚ
  tiempo_reaccion : ℚ
  carril : ℤ
  nPasos : ℕ
  elige : ℕ → ℕ

/-- `src/vehiculo.py`, `Vehiculo.__init__`: the initial state of a
vehicle.  The initial heading is `atan2` of the current street's
delta (`_calcular_direccion_inicial`), the current speed starts at
exactly 0, and the route starts empty with its cursor at 0. -/
def Vehiculo.init (M : MathModel) (tipo : TipoVehiculo) (posicion : Punto)
    (calle_actual : Calle) (tiempo : ℚ) (g : GeneracionDraws) : Vehiculo :=
  { tipo := tipo
    posicion := posicion
    calle_actual := calle_actual
    direccion := M.atan2 (calle_actual.fin.y - calle_actual.inicio.y)
      (calle_actual.fin.x - calle_actual.inicio.x)
    velocidad_maxima := obtener_velocidad_maxima tipo calle_actual g.variacion
    velocidad_actual := 0
    velocidad_objetivo := 0
    ruta := []
    indice_ruta := 0
    tiempo_parada := 0
    comportamiento := obtener_comportamiento tipo g.paciencia g.agresividad g.tiempo_reaccion
    carril := g.carril
    tiempo_creacion := tiempo
    distancia_recorrida := 0
    cambios_velocidad := 0
    tiempo_ultimo_evento := tiempo }

/-- `src/vehiculo.py`, `Vehiculo.establecer_ruta`. -/
def Vehiculo.establecer_ruta (v : Vehiculo) (calles : List Calle) : Vehiculo :=
  { v with ruta := calles, indice_ruta := 0 }

/-- The two-line angular-difference idiom the source repeats in
`_debe_detenerse_por_semaforo` and `_encontrar_vehiculo_adelante`:
absolute difference of the two angles, folded to the shorter way around
the circle. -/
def diferencia_angular (M : MathModel) (direccion angulo : ℚ) : ℚ :=
  min |direccion - angulo| (2 * M.pi - |direccion - angulo|)

/-- The four-line perception idiom of `_debe_detenerse_por_semaforo`
and `_encontrar_vehiculo_adelante`: bearing from the vehicle to a point
(`atan2` of the deltas), compared with the vehicle's heading through
`diferencia_angular`. -/
def Vehiculo.desviacion_hacia (M : MathModel) (v : Vehiculo) (p : Punto) : ℚ :=
  let dx := p.x - v.posicion.x
  let dy := p.y - v.posicion.y
  diferencia_angular M v.direccion (M.atan2 dy dx)

/-- `src/vehiculo.py`, `Vehiculo._debe_detenerse_por_semaforo`: never
for a GREEN light; never beyond 80 units; otherwise exactly when the
bearing to the light is within π/3 of the heading. -/
def Vehiculo.debe_detenerse_por_semaforo (M : MathModel) (v : Vehiculo)
    (semaforo : Semaforo) : Bool :=
  if semaforo.estado = EstadoSemaforo.VERDE then false
  else
    let distancia := Punto.distancia_a M v.posicion semaforo.posicion
    if 80 < distancia then false
    else decide (Vehiculo.desviacion_hacia M v semaforo.posicion < M.pi / 3)

/-- Loop body of `src/vehiculo.py`,
`Vehiculo._encontrar_vehiculo_adelante`: skip the vehicle itself, skip
vehicles whose bearing deviates by π/4 or more from the heading, and
keep the closer of the candidate and the best so far (the running
minimum distance starts at infinity; a `none` accumulator plays that
role here). -/
def pasoAdelante (M : MathModel) (v : Vehiculo) (acc : Option (Vehiculo × ℚ))
    (otro : Vehiculo) : Option (Vehiculo × ℚ) :=
  if otro = v then acc
  else if Vehiculo.desviacion_hacia M v otro.posicion < M.pi / 4 then
    let distancia := Punto.distancia_a M v.posicion otro.posicion
    match acc with
    | none => some (otro, distancia)
    | some (_, distancia_minima) =>
        if distancia < distancia_minima then some (otro, distancia) else acc
  else acc

/-- `src/vehiculo.py`, `Vehiculo._encontrar_vehiculo_adelante`: fold the
loop body over all other vehicles and return the nearest qualifying
one. -/
def Vehiculo.encontrar_vehiculo_adelante (M : MathModel) (v : Vehiculo)
    (otros_vehiculos : List Vehiculo) : Option Vehiculo :=
  (otros_vehiculos.foldl (pasoAdelante M v) none).map Prod.fst

/-- `src/vehiculo.py`, `Vehiculo._calcular_velocidad_objetivo`: start
from the maximum speed; any light that forces a stop drops the target
to 0 (the loop breaks at the first one); then the vehicle ahead, if
any, caps the target at 0.5 or 0.8 of its current speed depending on
distance. -/
def Vehiculo.calcular_velocidad_objetivo (M : MathModel) (v : Vehiculo)
    (otros_vehiculos : List Vehiculo) (semaforos : List Semaforo) : ℚ :=
  let vel_objetivo := v.velocidad_maxima
  let vel_objetivo :=
    if semaforos.any (fun s => Vehiculo.debe_detenerse_por_semaforo M v s) then 0
    else vel_objetivo
  match Vehiculo.encontrar_vehiculo_adelante M v otros_vehiculos with
  | some vehiculo_adelante =>
      let distancia := Punto.distancia_a M v.posicion vehiculo_adelante.posicion
      if distancia < 40 then
        min vel_objetivo (vehiculo_adelante.velocidad_actual * (1 / 2))
      else if distancia < 60 then
        min vel_objetivo (vehiculo_adelante.velocidad_actual * (8 / 10))
      else vel_objetivo
  | none => vel_objetivo

/-- `src/vehiculo.py`, `Vehiculo._aplicar_comportamiento_especial`: a
COMBI with frequent stops enters a passenger stop when the 0.1% draw
fires (`rParada` is the `random.random()` draw, `dParada` the drawn
duration `uniform(60, 180)`); while stopped, the counter decreases by
one and the target speed is forced to 0. -/
def Vehiculo.aplicar_comportamiento_especial (v : Vehiculo) (rParada dParada : ℚ) : Vehiculo :=
  let v1 :=
    if v.tipo = TipoVehiculo.COMBI ∧ v.comportamiento.paradas_frecuentes = true ∧
        rParada < 1 / 1000 then
      { v with tiempo_parada := dParada }
    else v
  if 0 < v1.tiempo_parada then
    { v1 with tiempo_parada := v1.tiempo_parada - 1, velocidad_objetivo := 0 }
  else v1

/-- `src/vehiculo.py`, `Vehiculo._actualizar_velocidad`: move the
current speed toward the target, by at most `0.08 × agresividad` when
accelerating, by at most the fixed `0.15` when decelerating, never
overshooting the target and never dropping below `max(0, target)`. -/
def Vehiculo.actualizar_velocidad (v : Vehiculo) : Vehiculo :=
  let aceleracion := 8 / 100 * v.comportamiento.agresividad
  let frenado : ℚ := 15 / 100
  if v.velocidad_actual < v.velocidad_objetivo then
    { v with velocidad_actual := min (v.velocidad_actual + aceleracion) v.velocidad_objetivo }
  else
    { v with velocidad_actual := max (v.velocidad_actual - frenado) (max 0 v.velocidad_objetivo) }

/-- `src/vehiculo.py`, `Vehiculo._mover`: advance the position by the
current speed along the heading perturbed by the drawn jitter `ruido`
(`uniform(-0.1, 0.1)`) scaled by `1 - paciencia`. -/
def Vehiculo.mover (M : MathModel) (v : Vehiculo) (ruido : ℚ) : Vehiculo :=
  let direccion_con_ruido := v.direccion + ruido * (1 - v.comportamiento.paciencia)
  { v with posicion :=
      ⟨v.posicion.x + M.cos direccion_con_ruido * v.velocidad_actual,
       v.posicion.y + M.sin direccion_con_ruido * v.velocidad_actual⟩ }

/-- `src/vehiculo.py`, `Vehiculo._calcular_progreso_en_calle`: distance
travelled from the start of the current street over its length, capped
at 1; degenerate streets count as completed. -/
def Vehiculo.calcular_progreso_en_calle (M : MathModel) (v : Vehiculo) : ℚ :=
  if v.ruta = [] then 1
  else
    let calle := v.ruta.getD v.indice_ruta default
    let total := Punto.distancia_a M calle.inicio calle.fin
    let actual := Punto.distancia_a M calle.inicio v.posicion
    if 0 < total then min (actual / total) 1 else 1

/-- `src/vehiculo.py`, `Vehiculo._actualizar_direccion`: recompute the
heading from the current route street, when the cursor is in range. -/
def Vehiculo.actualizar_direccion (M : MathModel) (v : Vehiculo) : Vehiculo :=
  if v.indice_ruta < v.ruta.length then
    let calle := v.ruta.getD v.indice_ruta default
    { v with direccion := M.atan2 (calle.fin.y - calle.inicio.y) (calle.fin.x - calle.inicio.x) }
  else v

/-- `src/vehiculo.py`, `Vehiculo.actualizar`: one full per-tick update.
Returns `none` exactly where the source returns `False`, the signal
that the vehicle completed its route and must be removed.  The draws
`rParada`, `dParada` and `ruido` feed the random calls of the
sub-steps, `tiempo_actual` stands for `time.time()`. -/
def Vehiculo.actualizar (M : MathModel) (v : Vehiculo) (otros_vehiculos : List Vehiculo)
    (semaforos : List Semaforo) (tiempo_actual rParada dParada ruido : ℚ) : Option Vehiculo :=
  let posicion_anterior := v.posicion
  if v.ruta = [] ∨ v.ruta.length ≤ v.indice_ruta then none
  else
    let avance : Option Vehiculo :=
      if 1 ≤ Vehiculo.calcular_progreso_en_calle M v then
        let v1 := { v with indice_ruta := v.indice_ruta + 1 }
        if v1.ruta.length ≤ v1.indice_ruta then none
        else
          let v2 := Vehiculo.actualizar_direccion M v1
          some (if 5 < tiempo_actual - v2.tiempo_ultimo_evento then
              { v2 with tiempo_ultimo_evento := tiempo_actual }
            else v2)
      else some v
    match avance with
    | none => none
    | some va =>
        let velocidad_anterior := va.velocidad_actual
        let vb := { va with velocidad_objetivo :=
          Vehiculo.calcular_velocidad_objetivo M va otros_vehiculos semaforos }
        let vc := Vehiculo.aplicar_comportamiento_especial vb rParada dParada
        let vd := Vehiculo.actualizar_velocidad vc
        let ve :=
          if 1 < |vd.velocidad_actual - velocidad_anterior| then
            { vd with cambios_velocidad := vd.cambios_velocidad + 1 }
          else vd
        let vf := Vehiculo.mover M ve ruido
        some { vf with distancia_recorrida :=
          vf.distancia_recorrida + Punto.distancia_a M posicion_anterior vf.posicion }

/-- `src/simulacion.py`: the state owned by `SimulacionTrafico`
(rendering, narrator and input-handling collaborators are omitted). -/
structure SimState where
  config : ConfiguracionSimulacion
  calles : List Calle
  semaforos : List Semaforo
  vehiculos : List Vehiculo
  estadisticas : EstadisticasTrafico
  hora_simulada : ℚ
  vehiculos_generados : ℕ
  tiempo_ultima_generacion : ℚ
  max_vehiculos_simultaneos : ℕ
deriving DecidableEq, Repr

/-- `src/simulacion.py`, `SimulacionTrafico._crear_semaforos`: one light
per supplied intersection (the three intersection groups of the map are
passed here already concatenated, in order), each consuming its own
random draws. -/
def crear_semaforos (tiempo : ℚ) (intersecciones : List (Punto × String))
    (draws : List SemaforoDraws) : List Semaforo :=
  (intersecciones.zip draws).map (fun pd => Semaforo.init pd.1.1 pd.1.2 tiempo pd.2)

/-- `src/simulacion.py`, `SimulacionTrafico.__init__`: builds the state
from the supplied configuration as-is — the constructor never calls
`ConfiguracionSimulacion.validar`, so no configuration is rejected or
altered.  `calles` and `intersecciones` stand for the map data the
`GeneradorMapaCusco` collaborator supplies, `tiempo` for `time.time()`. -/
def SimulacionTrafico.init (config : ConfiguracionSimulacion) (calles : List Calle)
    (intersecciones : List (Punto × String)) (tiempo : ℚ)
    (draws : List SemaforoDraws) : SimState :=
  { config := config
    calles := calles
    semaforos := crear_semaforos tiempo intersecciones draws
    vehiculos := []
    estadisticas := {}
    hora_simulada := config.hora_inicial
    vehiculos_generados := 0
    tiempo_ultima_generacion := tiempo
    max_vehiculos_simultaneos := 0 }

/-- `src/simulacion.py`, `SimulacionTrafico._obtener_patron_horario_actual`. -/
def obtener_patron_horario_actual (hora_simulada : ℚ) : PatronTrafico :=
  if 6 ≤ hora_simulada ∧ hora_simulada < 12 then patron_manana
  else if 12 ≤ hora_simulada ∧ hora_simulada < 18 then patron_tarde
  else if 18 ≤ hora_simulada ∧ hora_simulada < 22 then patron_mediodia
  else patron_noche

/-- Loop body of `src/simulacion.py`,
`SimulacionTrafico._generar_ruta_realista`: at each of the requested
steps, collect the streets whose start or end lies within 50 units of
the current street's endpoint; pick one (the draw `elige paso` selects
the index), append it and reset the failure counter; a missing
connection increments the counter, and 20 accumulated failures abort
the walk. -/
def rutaLoop (M : MathModel) (calles : List Calle) (elige : ℕ → ℕ) :
    ℕ → ℕ → ℕ → Calle → List Calle → List Calle
  | 0, _, _, _, ruta => ruta
  | pasos + 1, paso, intentos, calle_actual, ruta =>
    if 20 ≤ intentos then ruta
    else
      let calles_conectadas := calles.filter (fun calle =>
        calle ≠ calle_actual ∧
        (Punto.distancia_a M calle_actual.fin calle.inicio < 50 ∨
         Punto.distancia_a M calle_actual.fin calle.fin < 50))
      if calles_conectadas = [] then
        rutaLoop M calles elige pasos (paso + 1) (intentos + 1) calle_actual ruta
      else
        let siguiente := calles_conectadas.getD (elige paso % calles_conectadas.length) default
        rutaLoop M calles elige pasos (paso + 1) 0 siguiente (ruta ++ [siguiente])

/-- `src/simulacion.py`, `SimulacionTrafico._generar_ruta_realista`:
the bounded random connectivity walk, starting from the initial street;
`nPasos` is the `randint(3, 7)` draw. -/
def generar_ruta_realista (M : MathModel) (calles : List Calle) (calle_inicial : Calle)
    (nPasos : ℕ) (elige : ℕ → ℕ) : List Calle :=
  rutaLoop M calles elige nPasos 0 0 calle_inicial [calle_inicial]

/-- `src/simulacion.py`, `SimulacionTrafico._actualizar_estadisticas_vehiculo`. -/
def actualizar_estadisticas_vehiculo (e : EstadisticasTrafico) (tipo : TipoVehiculo)
    (incremento : ℤ) : EstadisticasTrafico :=
  match tipo with
  | TipoVehiculo.AUTO => { e with autos := e.autos + incremento }
  | TipoVehiculo.COMBI => { e with combis := e.combis + incremento }
  | TipoVehiculo.MOTO => { e with motos := e.motos + incremento }
  | TipoVehiculo.TAXI => { e with taxis := e.taxis + incremento }

/-- `src/simulacion.py`, `SimulacionTrafico._generar_vehiculo_inteligente`:
the spawn-admission check and, when it passes, the creation of one
vehicle.  The inter-arrival gap is the fresh draw `g.intervalo_base`
(`uniform(1.0, 3.0)`) divided by the active pattern's factor; the check
refuses — returning the state unchanged with `false` — when not enough
real time has passed since the last spawn, when the active count is at
or above the configured maximum, or when no primary/secondary street
exists. -/
def generar_vehiculo_inteligente (M : MathModel) (st : SimState) (tiempo_actual : ℚ)
    (g : GeneracionDraws) : SimState × Bool :=
  let patron := obtener_patron_horario_actual st.hora_simulada
  let intervalo_ajustado := g.intervalo_base / patron.factor
  if tiempo_actual - st.tiempo_ultima_generacion < intervalo_ajustado then (st, false)
  else if (st.config.max_vehiculos : ℤ) ≤ (st.vehiculos.length : ℤ) then (st, false)
  else
    let tipos_disponibles := patron.tipos
    let tipo_vehiculo := tipos_disponibles.getD (g.tipoIdx % tipos_disponibles.length) default
    let calles_principales := st.calles.filter
      (fun c => c.tipo = "principal" ∨ c.tipo = "secundaria")
    if calles_principales = [] then (st, false)
    else
      let calle_inicial := calles_principales.getD (g.calleIdx % calles_principales.length) default
      let posicion_inicial := calle_inicial.punto_en_progreso g.progreso_inicial
      let vehiculo := Vehiculo.init M tipo_vehiculo posicion_inicial calle_inicial tiempo_actual g
      let ruta := generar_ruta_realista M st.calles calle_inicial g.nPasos g.elige
      let vehiculo := vehiculo.establecer_ruta ruta
      let st1 : SimState := { st with
        vehiculos := st.vehiculos ++ [vehiculo]
        vehiculos_generados := st.vehiculos_generados + 1
        estadisticas := actualizar_estadisticas_vehiculo st.estadisticas tipo_vehiculo 1
        tiempo_ultima_generacion := tiempo_actual }
      let st2 : SimState :=
        if st1.max_vehiculos_simultaneos < st1.vehiculos.length then
          { st1 with max_vehiculos_simultaneos := st1.vehiculos.length }
        else st1
      (st2, true)

/-- `src/simulacion.py`,
`SimulacionTrafico._actualizar_estadisticas_generales`: recompute the
aggregate statistics from the current active-vehicle list — active and
generated counters, then, for a non-empty list, the mean speed and the
congestion `min(100, slow/total × 100)` where a vehicle is slow when
its speed is below half its own maximum. -/
def actualizar_estadisticas_generales (st : SimState) : EstadisticasTrafico :=
  let e := { st.estadisticas with
    vehiculos_activos := (st.vehiculos.length : ℤ)
    vehiculos_generados := (st.vehiculos_generados : ℤ) }
  if st.vehiculos = [] then
    { e with promedio_velocidad := 0, congestion := 0 }
  else
    let velocidad_total := (st.vehiculos.map (fun v => v.velocidad_actual)).sum
    let promedio := velocidad_total / (st.vehiculos.length : ℚ)
    let vehiculos_lentos := (st.vehiculos.filter
      (fun v => v.velocidad_actual < v.velocidad_maxima * (1 / 2))).length
    let congestion := min 100 (((vehiculos_lentos : ℚ) / (st.vehiculos.length : ℚ)) * 100)
    { e with promedio_velocidad := promedio, congestion := congestion }

/-- `src/simulacion.py`, `SimulacionTrafico._reiniciar_simulacion`:
clear the active vehicles and the generated counter, reset the
statistics, and return the simulated hour to the configured initial
hour; the street list, the light list and the configuration are left
untouched. -/
def reiniciar_simulacion (st : SimState) : SimState :=
  { st with
    vehiculos := []
    vehiculos_generados := 0
    estadisticas := st.estadisticas.reset
    hora_simulada := st.config.hora_inicial }

/-- Concrete math model used to evaluate the definitions on the sample
inputs of the witnesses: an arbitrary member of `MathModel` whose table
covers the square distances the samples produce. -/
def mathEjemplo : MathModel :=
  { pi := 3
    sqrt := fun q =>
      if q = 900 then 30
      else if q = 2500 then 50
      else if q = 6561 then 81
      else if q = 10000 then 100
      else 0
    atan2 := fun _ _ => 0
    cos := fun _ => 1
    sin := fun _ => 0 }

/-- Sample street for the witnesses. -/
def calleEjemplo : Calle :=
  { inicio := ⟨0, 0⟩
    fin := ⟨100, 0⟩
    ancho := 10
    tipo := "principal"
    direccion := DireccionCalle.HORIZONTAL
    velocidad_maxima := 3 }

/-- Sample random draws for the witnesses. -/
def drawsEjemplo : GeneracionDraws :=
  { intervalo_base := 2
    tipoIdx := 0
    calleIdx := 0
    progreso_inicial := 0
    variacion := 1
    paciencia := 1 / 2
    agresividad := 1 / 2
    tiempo_reaccion := 1
    carril := 1
    nPasos := 0
    elige := fun _ => 0 }

/-- Sample vehicle at the origin of the sample street, heading along
it. -/
def vehiculoEjemplo : Vehiculo :=
  Vehiculo.init mathEjemplo TipoVehiculo.AUTO ⟨0, 0⟩ calleEjemplo 0 drawsEjemplo

/-- The sample vehicle with its one-street route installed. -/
def vehiculoConRuta : Vehiculo :=
  vehiculoEjemplo.establecer_ruta [calleEjemplo]

/-- A second sample vehicle 30 units ahead of the first, moving at
speed 2. -/
def vehiculoLider : Vehiculo :=
  { vehiculoEjemplo with posicion := ⟨30, 0⟩, velocidad_actual := 2 }

/-- A red light 50 units ahead of the sample vehicle. -/
def semaforoRojoCerca : Semaforo :=
  { posicion := ⟨50, 0⟩
    estado := EstadoSemaforo.ROJO
    tipo := "normal"
    duracion_verde := 7
    duracion_rojo := 5
    duracion_amarillo := 3
    tiempo_cambio := 10 }

/-- A red light 81 units ahead of the sample vehicle. -/
def semaforoRojoLejos : Semaforo :=
  { semaforoRojoCerca with posicion := ⟨81, 0⟩ }

/-- An invalid configuration: zero frames per second. -/
def config_invalida : ConfiguracionSimulacion := { fps := 0 }

/-- Sample simulation state for the spawner witnesses. -/
def estadoEjemplo : SimState :=
  SimulacionTrafico.init {} [calleEjemplo] [(⟨50, 0⟩, "normal")] 0
    [{ uInicial := 6, uVerde := 7, uRojo := 5 }]

/-- The speed written by `_actualizar_velocidad`, in closed form. -/
theorem actualizar_velocidad_eq (v : Vehiculo) :
    (Vehiculo.actualizar_velocidad v).velocidad_actual =
      if v.velocidad_actual < v.velocidad_objetivo then
        min (v.velocidad_actual + 8 / 100 * v.comportamiento.agresividad) v.velocidad_objetivo
      else max (v.velocidad_actual - 15 / 100) (max 0 v.velocidad_objetivo) := by
  unfold Vehiculo.actualizar_velocidad
  split <;> rfl

/-- `_actualizar_velocidad` only writes the speed. -/
theorem actualizar_velocidad_comportamiento (v : Vehiculo) :
    (Vehiculo.actualizar_velocidad v).comportamiento = v.comportamiento := by
  unfold Vehiculo.actualizar_velocidad
  split <;> rfl

/-- A speed-update step never produces a negative speed, whatever the
target is. -/
theorem actualizar_velocidad_nonneg (v : Vehiculo) (h : 0 ≤ v.velocidad_actual)
    (ha : 0 ≤ v.comportamiento.agresividad) :
    0 ≤ (Vehiculo.actualizar_velocidad v).velocidad_actual := by
  rw [actualizar_velocidad_eq]
  split
  · next hlt =>
      refine le_min (by positivity) ?_
      exact le_of_lt (lt_of_le_of_lt h hlt)
  · exact le_trans (le_max_left 0 v.velocidad_objetivo) (le_max_right _ _)

/-- C1: a light's tick is a no-op on state and deadline before the
stored deadline; at or past it, the state advances exactly one step in
the cycle GREEN→YELLOW→RED→GREEN and the deadline becomes now plus the
fixed duration configured for the newly entered state. -/
theorem claim_C1 (s : Semaforo) (t : ℚ) :
    (t < s.tiempo_cambio → Semaforo.actualizar s t = s) ∧
    (s.tiempo_cambio ≤ t →
      (Semaforo.actualizar s t).estado = EstadoSemaforo.siguiente s.estado ∧
      (Semaforo.actualizar s t).tiempo_cambio =
        t + Semaforo.duracion_de s (EstadoSemaforo.siguiente s.estado)) := by
  obtain ⟨p, e, ti, dv, dr, da, tc⟩ := s
  constructor
  · intro h
    unfold Semaforo.actualizar
    rw [if_neg (not_le.mpr h)]
  · intro h
    unfold Semaforo.actualizar
    rw [if_pos h]
    cases e <;>
      simp [EstadoSemaforo.siguiente, Semaforo.duracion_de]

/-- Witness for C1: before the deadline (time 3 < 10) the sample red
light is unchanged; at time 10 it turns green with deadline 10 + 7. -/
theorem claim_C1_witness :
    Semaforo.actualizar semaforoRojoCerca 3 = semaforoRojoCerca ∧
    (Semaforo.actualizar semaforoRojoCerca 10).estado = EstadoSemaforo.VERDE ∧
    (Semaforo.actualizar semaforoRojoCerca 10).tiempo_cambio = 17 := by
  refine ⟨(claim_C1 semaforoRojoCerca 3).1 (by decide), ?_, ?_⟩
  · exact ((claim_C1 semaforoRojoCerca 10).2 (by decide)).1
  · rw [((claim_C1 semaforoRojoCerca 10).2 (by decide)).2]
    norm_num [semaforoRojoCerca, Semaforo.duracion_de, EstadoSemaforo.siguiente]

/-- C4: accelerating (current speed below target), the new speed never
exceeds the target and grows by at most 0.08 × aggressiveness;
decelerating (current speed at or past the target, and non-negative, as
every reachable speed is), the new speed never exceeds the old one,
drops by at most the fixed 0.15, and never falls below
max(0, target). -/
theorem claim_C4 (v : Vehiculo) :
    (v.velocidad_actual < v.velocidad_objetivo →
      (Vehiculo.actualizar_velocidad v).velocidad_actual ≤ v.velocidad_objetivo ∧
      (Vehiculo.actualizar_velocidad v).velocidad_actual - v.velocidad_actual ≤
        8 / 100 * v.comportamiento.agresividad) ∧
    (v.velocidad_objetivo ≤ v.velocidad_actual → 0 ≤ v.velocidad_actual →
      (Vehiculo.actualizar_velocidad v).velocidad_actual ≤ v.velocidad_actual ∧
      v.velocidad_actual - (Vehiculo.actualizar_velocidad v).velocidad_actual ≤ 15 / 100 ∧
      max 0 v.velocidad_objetivo ≤ (Vehiculo.actualizar_velocidad v).velocidad_actual) := by
  constructor
  · intro h
    rw [actualizar_velocidad_eq, if_pos h]
    refine ⟨min_le_right _ _, ?_⟩
    have hm := min_le_left (v.velocidad_actual + 8 / 100 * v.comportamiento.agresividad)
      v.velocidad_objetivo
    linarith
  · intro h h0
    rw [actualizar_velocidad_eq, if_neg (not_lt.mpr h)]
    refine ⟨max_le (by linarith) (max_le h0 h), ?_, le_max_right _ _⟩
    have hm := le_max_left (v.velocidad_actual - 15 / 100) (max 0 v.velocidad_objetivo)
    linarith

/-- Witness for C4: the sample vehicle accelerating from 0 toward
target 2 stays at most 2 and gains at most 0.08 × 0.5; the leader
decelerating from 2 toward target 0 does not speed up, loses at most
0.15 and stays at or above 0. -/
theorem claim_C4_witness :
    ((Vehiculo.actualizar_velocidad { vehiculoEjemplo with velocidad_objetivo := 2
        }).velocidad_actual ≤ 2 ∧
      (Vehiculo.actualizar_velocidad { vehiculoEjemplo with velocidad_objetivo := 2
        }).velocidad_actual - 0 ≤ 8 / 100 * (1 / 2)) ∧
    ((Vehiculo.actualizar_velocidad vehiculoLider).velocidad_actual ≤ 2 ∧
      2 - (Vehiculo.actualizar_velocidad vehiculoLider).velocidad_actual ≤ 15 / 100 ∧
      max 0 0 ≤ (Vehiculo.actualizar_velocidad vehiculoLider).velocidad_actual) := by
  constructor
  · exact (claim_C4 { vehiculoEjemplo with velocidad_objetivo := 2 }).1 (by decide)
  · exact (claim_C4 vehiculoLider).2 (by decide) (by decide)

/-- C7: a vehicle whose route is empty, or whose route cursor is at or
past the end of the route, signals removal (returns `none`, the
embedding of the source's `return False`) on its very first update,
with no error and before any motion or speed change. -/
theorem claim_C7 (M : MathModel) (v : Vehiculo) (otros : List Vehiculo)
    (semaforos : List Semaforo) (t rP dP ruido : ℚ)
    (h : v.ruta = [] ∨ v.ruta.length ≤ v.indice_ruta) :
    Vehiculo.actualizar M v otros semaforos t rP dP ruido = none := by
  unfold Vehiculo.actualizar
  rw [if_pos h]

/-- Witness for C7: the sample vehicle, whose route was never
installed, is removed by its first update. -/
theorem claim_C7_witness :
    Vehiculo.actualizar mathEjemplo vehiculoEjemplo [] [] 0 1 0 0 = none :=
  claim_C7 mathEjemplo vehiculoEjemplo [] [] 0 1 0 0 (Or.inl (by decide))

/-- C9: restarting empties the active vehicle set, zeroes the per-kind
counts, the active count, the generated counter, the mean speed and the
congestion, returns the simulated hour to the configured initial hour,
and leaves the street list, the light list and every light's configured
durations untouched. -/
theorem claim_C9 (st : SimState) :
    (reiniciar_simulacion st).vehiculos = [] ∧
    (reiniciar_simulacion st).vehiculos_generados = 0 ∧
    (reiniciar_simulacion st).estadisticas.autos = 0 ∧
    (reiniciar_simulacion st).estadisticas.combis = 0 ∧
    (reiniciar_simulacion st).estadisticas.motos = 0 ∧
    (reiniciar_simulacion st).estadisticas.taxis = 0 ∧
    (reiniciar_simulacion st).estadisticas.vehiculos_activos = 0 ∧
    (reiniciar_simulacion st).estadisticas.promedio_velocidad = 0 ∧
    (reiniciar_simulacion st).estadisticas.congestion = 0 ∧
    (reiniciar_simulacion st).hora_simulada = st.config.hora_inicial ∧
    (reiniciar_simulacion st).calles = st.calles ∧
    (reiniciar_simulacion st).semaforos = st.semaforos ∧
    (reiniciar_simulacion st).semaforos.map
        (fun sem => (sem.duracion_verde, sem.duracion_amarillo, sem.duracion_rojo)) =
      st.semaforos.map
        (fun sem => (sem.duracion_verde, sem.duracion_amarillo, sem.duracion_rojo)) :=
  ⟨rfl, rfl, rfl, rfl, rfl, rfl, rfl, rfl, rfl, rfl, rfl, rfl, rfl⟩

/-- One step of the ahead-vehicle fold keeps the accumulator a
qualifying candidate paired with its distance, and any new entry comes
from the scanned element itself. -/
theorem pasoAdelante_sound (M : MathModel) (v a : Vehiculo) (acc : Option (Vehiculo × ℚ))
    (hacc : ∀ w d, acc = some (w, d) → d = Punto.distancia_a M v.posicion w.posicion ∧
      w ≠ v ∧ Vehiculo.desviacion_hacia M v w.posicion < M.pi / 4) :
    ∀ w d, pasoAdelante M v acc a = some (w, d) →
      (d = Punto.distancia_a M v.posicion w.posicion ∧
        w ≠ v ∧ Vehiculo.desviacion_hacia M v w.posicion < M.pi / 4) ∧
      (w = a ∨ acc = some (w, d)) := by
  intro w d h
  cases acc with
  | none =>
      simp only [pasoAdelante] at h
      split at h
      · exact absurd h (by simp)
      · split at h
        · next hne hang =>
            simp only [Option.some.injEq, Prod.mk.injEq] at h
            obtain ⟨rfl, rfl⟩ := h
            exact ⟨⟨rfl, hne, hang⟩, Or.inl rfl⟩
        · exact absurd h (by simp)
  | some pd =>
      obtain ⟨p, dmin⟩ := pd
      simp only [pasoAdelante] at h
      split at h
      · exact ⟨hacc w d h, Or.inr h⟩
      · split at h
        · next hne hang =>
            split at h
            · simp only [Option.some.injEq, Prod.mk.injEq] at h
              obtain ⟨rfl, rfl⟩ := h
              exact ⟨⟨rfl, hne, hang⟩, Or.inl rfl⟩
            · exact ⟨hacc w d h, Or.inr h⟩
        · exact ⟨hacc w d h, Or.inr h⟩

/-- One step of the ahead-vehicle fold never discards a `some`
accumulator and never increases the recorded minimum distance. -/
theorem pasoAdelante_le (M : MathModel) (v a p : Vehiculo) (dmin : ℚ) :
    ∃ p2 d2, pasoAdelante M v (some (p, dmin)) a = some (p2, d2) ∧ d2 ≤ dmin := by
  simp only [pasoAdelante]
  split
  · exact ⟨p, dmin, rfl, le_refl _⟩
  · split
    · split
      · next hlt => exact ⟨a, _, rfl, le_of_lt hlt⟩
      · exact ⟨p, dmin, rfl, le_refl _⟩
    · exact ⟨p, dmin, rfl, le_refl _⟩

/-- When the scanned element qualifies, the step result records a
distance no larger than that element's distance. -/
theorem pasoAdelante_cand (M : MathModel) (v a : Vehiculo) (acc : Option (Vehiculo × ℚ))
    (hne : a ≠ v) (hang : Vehiculo.desviacion_hacia M v a.posicion < M.pi / 4) :
    ∃ p2 d2, pasoAdelante M v acc a = some (p2, d2) ∧
      d2 ≤ Punto.distancia_a M v.posicion a.posicion := by
  cases acc with
  | none =>
      refine ⟨a, Punto.distancia_a M v.posicion a.posicion, ?_, le_refl _⟩
      simp only [pasoAdelante]
      rw [if_neg hne, if_pos hang]
  | some pd =>
      obtain ⟨p, dmin⟩ := pd
      simp only [pasoAdelante]
      rw [if_neg hne, if_pos hang]
      by_cases hlt : Punto.distancia_a M v.posicion a.posicion < dmin
      · rw [if_pos hlt]
        exact ⟨a, _, rfl, le_refl _⟩
      · rw [if_neg hlt]
        exact ⟨p, dmin, rfl, not_lt.mp hlt⟩

/-- Along the fold, the recorded minimum distance never increases. -/
theorem foldAdelante_mono (M : MathModel) (v : Vehiculo) (l : List Vehiculo) :
    ∀ (p : Vehiculo) (dmin : ℚ) (w : Vehiculo) (d : ℚ),
      l.foldl (pasoAdelante M v) (some (p, dmin)) = some (w, d) → d ≤ dmin := by
  induction l with
  | nil =>
      intro p dmin w d hfold
      simp only [List.foldl_nil, Option.some.injEq, Prod.mk.injEq] at hfold
      exact le_of_eq hfold.2.symm
  | cons a l ih =>
      intro p dmin w d hfold
      rw [List.foldl_cons] at hfold
      obtain ⟨p2, d2, hstep, hle⟩ := pasoAdelante_le M v a p dmin
      rw [hstep] at hfold
      exact le_trans (ih p2 d2 w d hfold) hle

/-- The fold's result is a qualifying member of the scanned list (when
the accumulator started empty) at its own distance. -/
theorem foldAdelante_sound (M : MathModel) (v : Vehiculo) (l : List Vehiculo) :
    ∀ (acc : Option (Vehiculo × ℚ)),
      (∀ w d, acc = some (w, d) → d = Punto.distancia_a M v.posicion w.posicion ∧
        w ≠ v ∧ Vehiculo.desviacion_hacia M v w.posicion < M.pi / 4) →
      ∀ w d, l.foldl (pasoAdelante M v) acc = some (w, d) →
        (d = Punto.distancia_a M v.posicion w.posicion ∧
          w ≠ v ∧ Vehiculo.desviacion_hacia M v w.posicion < M.pi / 4) ∧
        (w ∈ l ∨ acc = some (w, d)) := by
  induction l with
  | nil =>
      intro acc hacc w d hfold
      exact ⟨hacc w d hfold, Or.inr hfold⟩
  | cons a l ih =>
      intro acc hacc w d hfold
      rw [List.foldl_cons] at hfold
      have hstep := pasoAdelante_sound M v a acc hacc
      obtain ⟨hprops, hmem⟩ := ih (pasoAdelante M v acc a)
        (fun w d h => (hstep w d h).1) w d hfold
      refine ⟨hprops, ?_⟩
      rcases hmem with hl | hacc'
      · exact Or.inl (List.mem_cons_of_mem a hl)
      · rcases (hstep w d hacc').2 with rfl | h
        · exact Or.inl (List.mem_cons_self _ _)
        · exact Or.inr h

/-- The fold's recorded distance is minimal over every qualifying
member of the scanned list. -/
theorem foldAdelante_min (M : MathModel) (v : Vehiculo) (l : List Vehiculo) :
    ∀ (acc : Option (Vehiculo × ℚ)) (w : Vehiculo) (d : ℚ),
      l.foldl (pasoAdelante M v) acc = some (w, d) →
      ∀ u ∈ l, u ≠ v → Vehiculo.desviacion_hacia M v u.posicion < M.pi / 4 →
        d ≤ Punto.distancia_a M v.posicion u.posicion := by
  induction l with
  | nil =>
      intro acc w d _ u hu
      exact absurd hu (List.not_mem_nil u)
  | cons a l ih =>
      intro acc w d hfold u hu hne hang
      rw [List.foldl_cons] at hfold
      rcases List.mem_cons.mp hu with rfl | hu'
      · obtain ⟨p2, d2, hstep, hle⟩ := pasoAdelante_cand M v u acc hne hang
        rw [hstep] at hfold
        exact le_trans (foldAdelante_mono M v l p2 d2 w d hfold) hle
      · exact ih _ w d hfold u hu' hne hang

/-- The fold never turns a `some` accumulator into `none`. -/
theorem foldAdelante_ne_none (M : MathModel) (v : Vehiculo) (l : List Vehiculo) :
    ∀ (acc : Option (Vehiculo × ℚ)), acc ≠ none →
      l.foldl (pasoAdelante M v) acc ≠ none := by
  induction l with
  | nil => exact fun acc h => h
  | cons a l ih =>
      intro acc h
      rw [List.foldl_cons]
      apply ih
      cases acc with
      | none => exact absurd rfl h
      | some pd =>
          obtain ⟨p, dmin⟩ := pd
          simp only [pasoAdelante]
          split
          · simp
          · split
            · split <;> simp
            · simp

/-- A qualifying member of the scanned list forces the fold to produce
a result. -/
theorem foldAdelante_mem_ne_none (M : MathModel) (v : Vehiculo) (l : List Vehiculo) :
    ∀ (acc : Option (Vehiculo × ℚ)) (u : Vehiculo), u ∈ l → u ≠ v →
      Vehiculo.desviacion_hacia M v u.posicion < M.pi / 4 →
      l.foldl (pasoAdelante M v) acc ≠ none := by
  induction l with
  | nil =>
      intro acc u hu
      exact absurd hu (List.not_mem_nil u)
  | cons a l ih =>
      intro acc u hu hne hang
      rw [List.foldl_cons]
      rcases List.mem_cons.mp hu with rfl | hu'
      · apply foldAdelante_ne_none
        obtain ⟨p2, d2, hstep, _⟩ := pasoAdelante_cand M v u acc hne hang
        rw [hstep]
        simp
      · exact ih _ u hu' hne hang

/-- Characterization of `_encontrar_vehiculo_adelante` when it finds a
vehicle: the result is another active vehicle within π/4 of the
heading, at the smallest distance among all such vehicles. -/
theorem encontrar_adelante_sound (M : MathModel) (v : Vehiculo) (otros : List Vehiculo)
    (w : Vehiculo) (h : Vehiculo.encontrar_vehiculo_adelante M v otros = some w) :
    w ∈ otros ∧ w ≠ v ∧ Vehiculo.desviacion_hacia M v w.posicion < M.pi / 4 ∧
    ∀ u ∈ otros, u ≠ v → Vehiculo.desviacion_hacia M v u.posicion < M.pi / 4 →
      Punto.distancia_a M v.posicion w.posicion ≤ Punto.distancia_a M v.posicion u.posicion := by
  unfold Vehiculo.encontrar_vehiculo_adelante at h
  rw [Option.map_eq_some'] at h
  obtain ⟨⟨w', d⟩, hfold, hw⟩ := h
  simp only at hw
  subst hw
  obtain ⟨⟨hd, hne, hang⟩, hmem⟩ := foldAdelante_sound M v otros none
    (fun w d h => absurd h (by simp)) w' d hfold
  rcases hmem with hmem | habs
  · refine ⟨hmem, hne, hang, ?_⟩
    intro u hu hune huang
    rw [← hd]
    exact foldAdelante_min M v otros none w' d hfold u hu hune huang
  · exact absurd habs (by simp)

/-- `_encontrar_vehiculo_adelante` cannot miss: if some other vehicle
qualifies, the result is not `none`. -/
theorem encontrar_adelante_completo (M : MathModel) (v : Vehiculo) (otros : List Vehiculo)
    (u : Vehiculo) (hu : u ∈ otros) (hne : u ≠ v)
    (hang : Vehiculo.desviacion_hacia M v u.posicion < M.pi / 4) :
    Vehiculo.encontrar_vehiculo_adelante M v otros ≠ none := by
  unfold Vehiculo.encontrar_vehiculo_adelante
  intro h
  rw [Option.map_eq_none'] at h
  exact foldAdelante_mem_ne_none M v otros none u hu hne hang h

/-- C2: any non-GREEN light within 80 units whose bearing is within π/3
of the heading forces the computed target speed to 0 (given the
invariant that active vehicles have non-negative speeds); a lone RED
light at distance 81, with no other vehicle or light, leaves the target
at the vehicle's maximum speed, which is strictly positive. -/
theorem claim_C2 (M : MathModel) (v : Vehiculo) (otros : List Vehiculo)
    (semaforos : List Semaforo) (s : Semaforo) :
    (s ∈ semaforos → s.estado ≠ EstadoSemaforo.VERDE →
      Punto.distancia_a M v.posicion s.posicion ≤ 80 →
      Vehiculo.desviacion_hacia M v s.posicion < M.pi / 3 →
      (∀ u ∈ otros, 0 ≤ u.velocidad_actual) →
      Vehiculo.calcular_velocidad_objetivo M v otros semaforos = 0) ∧
    (s.estado = EstadoSemaforo.ROJO →
      Punto.distancia_a M v.posicion s.posicion = 81 →
      0 < v.velocidad_maxima →
      Vehiculo.calcular_velocidad_objetivo M v [] [s] = v.velocidad_maxima ∧
      0 < Vehiculo.calcular_velocidad_objetivo M v [] [s]) := by
  constructor
  · intro hmem hnv hdist hang hvel
    have hdebe : Vehiculo.debe_detenerse_por_semaforo M v s = true := by
      simp only [Vehiculo.debe_detenerse_por_semaforo]
      rw [if_neg hnv, if_neg (not_lt.mpr hdist)]
      exact decide_eq_true hang
    have hany : semaforos.any (fun x => Vehiculo.debe_detenerse_por_semaforo M v x) = true :=
      List.any_eq_true.mpr ⟨s, hmem, hdebe⟩
    cases hw : Vehiculo.encontrar_vehiculo_adelante M v otros with
    | none => simp only [Vehiculo.calcular_velocidad_objetivo, hany, if_true, hw]
    | some w =>
        have hw0 : 0 ≤ w.velocidad_actual :=
          hvel w (encontrar_adelante_sound M v otros w hw).1
        simp only [Vehiculo.calcular_velocidad_objetivo, hany, if_true, hw]
        split
        · exact min_eq_left (mul_nonneg hw0 (by norm_num))
        · split
          · exact min_eq_left (mul_nonneg hw0 (by norm_num))
          · rfl
  · intro hrojo hdist hpos
    have hdebe : Vehiculo.debe_detenerse_por_semaforo M v s = false := by
      simp only [Vehiculo.debe_detenerse_por_semaforo, hdist]
      rw [if_neg (by rw [hrojo]; exact fun h => nomatch h)]
      rw [if_pos (by norm_num : (80 : ℚ) < 81)]
    have hcalc : Vehiculo.calcular_velocidad_objetivo M v [] [s] = v.velocidad_maxima := by
      simp only [Vehiculo.calcular_velocidad_objetivo, Vehiculo.encontrar_vehiculo_adelante,
        List.any_cons, List.any_nil, hdebe, Bool.or_false, List.foldl_nil, Option.map_none',
        if_false, Bool.false_eq_true]
    exact ⟨hcalc, hcalc ▸ hpos⟩

/-- Witness for C2: the sample vehicle facing the red light 50 units
ahead computes target 0; facing only the red light 81 units away it
computes its (positive) maximum speed. -/
theorem claim_C2_witness :
    Vehiculo.calcular_velocidad_objetivo mathEjemplo vehiculoEjemplo [] [semaforoRojoCerca] = 0 ∧
    Vehiculo.calcular_velocidad_objetivo mathEjemplo vehiculoEjemplo [] [semaforoRojoLejos] =
      vehiculoEjemplo.velocidad_maxima ∧
    0 < Vehiculo.calcular_velocidad_objetivo mathEjemplo vehiculoEjemplo [] [semaforoRojoLejos] := by
  have hdist50 : Punto.distancia_a mathEjemplo vehiculoEjemplo.posicion
      semaforoRojoCerca.posicion ≤ 80 := by
    norm_num [Punto.distancia_a, mathEjemplo, vehiculoEjemplo, Vehiculo.init,
      semaforoRojoCerca, calleEjemplo, drawsEjemplo]
  have hdist81 : Punto.distancia_a mathEjemplo vehiculoEjemplo.posicion
      semaforoRojoLejos.posicion = 81 := by
    norm_num [Punto.distancia_a, mathEjemplo, vehiculoEjemplo, Vehiculo.init,
      semaforoRojoLejos, semaforoRojoCerca, calleEjemplo, drawsEjemplo]
  have hang50 : Vehiculo.desviacion_hacia mathEjemplo vehiculoEjemplo
      semaforoRojoCerca.posicion < mathEjemplo.pi / 3 := by
    norm_num [Vehiculo.desviacion_hacia, diferencia_angular, mathEjemplo, vehiculoEjemplo,
      Vehiculo.init, semaforoRojoCerca, calleEjemplo, drawsEjemplo]
  have hvmax : 0 < vehiculoEjemplo.velocidad_maxima := by
    have h : vehiculoEjemplo.velocidad_maxima = 5 / 2 := by
      simp [vehiculoEjemplo, Vehiculo.init, obtener_velocidad_maxima, VELOCIDADES_BASE,
        calleEjemplo, drawsEjemplo]
    rw [h]
    norm_num
  refine ⟨?_, ?_, ?_⟩
  · exact (claim_C2 mathEjemplo vehiculoEjemplo [] [semaforoRojoCerca] semaforoRojoCerca).1
      (by simp) (by decide) hdist50 hang50
      (fun u hu => absurd hu (List.not_mem_nil u))
  · exact ((claim_C2 mathEjemplo vehiculoEjemplo [] [semaforoRojoLejos] semaforoRojoLejos).2
      (by decide) hdist81 hvmax).1
  · exact ((claim_C2 mathEjemplo vehiculoEjemplo [] [semaforoRojoLejos] semaforoRojoLejos).2
      (by decide) hdist81 hvmax).2

/-- C3: the vehicle ahead is the Euclidean-nearest other vehicle whose
bearing is within π/4 of the heading (and one is found whenever one
qualifies); at distance below 40 it caps the target speed at 0.5 times
its current speed, in [40, 60) at 0.8 times, and from 60 on imposes no
constraint; in particular with a single qualifying vehicle 30 units
ahead the trailing vehicle's target is at most half the leader's
current speed. -/
theorem claim_C3 (M : MathModel) (v : Vehiculo) (otros : List Vehiculo)
    (semaforos : List Semaforo) :
    (∀ w, Vehiculo.encontrar_vehiculo_adelante M v otros = some w →
      w ∈ otros ∧ w ≠ v ∧ Vehiculo.desviacion_hacia M v w.posicion < M.pi / 4 ∧
      ∀ u ∈ otros, u ≠ v → Vehiculo.desviacion_hacia M v u.posicion < M.pi / 4 →
        Punto.distancia_a M v.posicion w.posicion ≤ Punto.distancia_a M v.posicion u.posicion) ∧
    (∀ u ∈ otros, u ≠ v → Vehiculo.desviacion_hacia M v u.posicion < M.pi / 4 →
      Vehiculo.encontrar_vehiculo_adelante M v otros ≠ none) ∧
    (∀ w, Vehiculo.encontrar_vehiculo_adelante M v otros = some w →
      (Punto.distancia_a M v.posicion w.posicion < 40 →
        Vehiculo.calcular_velocidad_objetivo M v otros semaforos ≤
          w.velocidad_actual * (1 / 2)) ∧
      (40 ≤ Punto.distancia_a M v.posicion w.posicion →
        Punto.distancia_a M v.posicion w.posicion < 60 →
        Vehiculo.calcular_velocidad_objetivo M v otros semaforos ≤
          w.velocidad_actual * (8 / 10)) ∧
      (60 ≤ Punto.distancia_a M v.posicion w.posicion →
        Vehiculo.calcular_velocidad_objetivo M v otros semaforos =
          if semaforos.any (fun x => Vehiculo.debe_detenerse_por_semaforo M v x) then 0
          else v.velocidad_maxima)) ∧
    (∀ u, otros = [u] → u ≠ v → Vehiculo.desviacion_hacia M v u.posicion < M.pi / 4 →
      Punto.distancia_a M v.posicion u.posicion = 30 →
      Vehiculo.calcular_velocidad_objetivo M v otros semaforos ≤
        u.velocidad_actual * (1 / 2)) := by
  have hcaps : ∀ w, Vehiculo.encontrar_vehiculo_adelante M v otros = some w →
      (Punto.distancia_a M v.posicion w.posicion < 40 →
        Vehiculo.calcular_velocidad_objetivo M v otros semaforos ≤
          w.velocidad_actual * (1 / 2)) ∧
      (40 ≤ Punto.distancia_a M v.posicion w.posicion →
        Punto.distancia_a M v.posicion w.posicion < 60 →
        Vehiculo.calcular_velocidad_objetivo M v otros semaforos ≤
          w.velocidad_actual * (8 / 10)) ∧
      (60 ≤ Punto.distancia_a M v.posicion w.posicion →
        Vehiculo.calcular_velocidad_objetivo M v otros semaforos =
          if semaforos.any (fun x => Vehiculo.debe_detenerse_por_semaforo M v x) then 0
          else v.velocidad_maxima) := by
    intro w hw
    simp only [Vehiculo.calcular_velocidad_objetivo, hw]
    refine ⟨?_, ?_, ?_⟩
    · intro hd
      rw [if_pos hd]
      exact min_le_right _ _
    · intro hd40 hd60
      rw [if_neg (not_lt.mpr hd40), if_pos hd60]
      exact min_le_right _ _
    · intro hd
      rw [if_neg (not_lt.mpr (le_trans (by norm_num) hd)),
        if_neg (not_lt.mpr hd)]
  refine ⟨?_, ?_, hcaps, ?_⟩
  · exact fun w hw => encontrar_adelante_sound M v otros w hw
  · exact fun u hu hne hang => encontrar_adelante_completo M v otros u hu hne hang
  · intro u hotros hne hang hdist
    subst hotros
    have hsome : Vehiculo.encontrar_vehiculo_adelante M v [u] = some u := by
      simp only [Vehiculo.encontrar_vehiculo_adelante, List.foldl_cons, List.foldl_nil,
        pasoAdelante]
      rw [if_neg hne, if_pos hang]
      rfl
    have := ((hcaps u hsome).1) (by rw [hdist]; norm_num)
    exact this

/-- Witness for C3: the sample vehicle trailing the leader 30 units
ahead on the same heading computes a target of at most half the
leader's current speed. -/
theorem claim_C3_witness :
    Vehiculo.calcular_velocidad_objetivo mathEjemplo vehiculoEjemplo [vehiculoLider] [] ≤
      vehiculoLider.velocidad_actual * (1 / 2) :=
  (claim_C3 mathEjemplo vehiculoEjemplo [vehiculoLider] []).2.2.2 vehiculoLider rfl
    (by decide)
    (by norm_num [Vehiculo.desviacion_hacia, diferencia_angular, mathEjemplo, vehiculoEjemplo,
      vehiculoLider, Vehiculo.init, calleEjemplo, drawsEjemplo])
    (by norm_num [Punto.distancia_a, mathEjemplo, vehiculoEjemplo, vehiculoLider,
      Vehiculo.init, calleEjemplo, drawsEjemplo])

/-- Counterexample to C5: the constructor accepts a configuration with
`fps = 0`, which `validar` classifies as invalid — the simulation is
built with the unchecked, unclamped value instead of being rejected. -/
theorem claim_C5_counterexample :
    ConfiguracionSimulacion.validar config_invalida = false ∧
    SimulacionTrafico.init config_invalida [] [] 0 [] =
      { config := config_invalida
        calles := []
        semaforos := []
        vehiculos := []
        estadisticas := {}
        hora_simulada := 8
        vehiculos_generados := 0
        tiempo_ultima_generacion := 0
        max_vehiculos_simultaneos := 0 } ∧
    (SimulacionTrafico.init config_invalida [] [] 0 []).config.fps = 0 := by
  refine ⟨by decide, rfl, rfl⟩

/-- C5 as amended: `validar` recognizes exactly the configurations with
positive bounds and an initial hour in [0, 24), but the constructor
never consults it — construction succeeds for every configuration and
stores it unchanged. -/
theorem claim_C5_amended (c : ConfiguracionSimulacion) (calles : List Calle)
    (intersecciones : List (Punto × String)) (tiempo : ℚ) (draws : List SemaforoDraws) :
    (ConfiguracionSimulacion.validar c = true ↔
      (0 < c.ancho_pantalla ∧ 0 < c.alto_pantalla ∧ 0 < c.fps ∧ 0 < c.max_vehiculos ∧
        0 ≤ c.hora_inicial ∧ c.hora_inicial < 24)) ∧
    (SimulacionTrafico.init c calles intersecciones tiempo draws).config = c ∧
    (SimulacionTrafico.init c calles intersecciones tiempo draws).hora_simulada =
      c.hora_inicial := by
  refine ⟨?_, rfl, rfl⟩
  simp [ConfiguracionSimulacion.validar, and_assoc]

/-- C6: after the statistics recomputation, the congestion equals
exactly 100 × (number of vehicles below half their own maximum speed) /
(number of active vehicles) for a non-empty active set, and 0 for an
empty one — a pure function of the current vehicle list alone. -/
theorem claim_C6 (st : SimState) :
    (actualizar_estadisticas_generales st).congestion =
      if st.vehiculos = [] then 0
      else 100 * ((st.vehiculos.filter
          (fun v => v.velocidad_actual < v.velocidad_maxima * (1 / 2))).length : ℚ) /
        (st.vehiculos.length : ℚ) := by
  simp only [actualizar_estadisticas_generales]
  split
  · rfl
  · next hne =>
      have hn : 0 < (st.vehiculos.length : ℚ) := by
        exact_mod_cast List.length_pos.mpr hne
      have hl : ((st.vehiculos.filter
          (fun v => v.velocidad_actual < v.velocidad_maxima * (1 / 2))).length : ℚ) ≤
          (st.vehiculos.length : ℚ) := by
        exact_mod_cast List.length_filter_le _ _
      have hb : (((st.vehiculos.filter
          (fun v => v.velocidad_actual < v.velocidad_maxima * (1 / 2))).length : ℚ) /
            (st.vehiculos.length : ℚ)) * 100 ≤ 100 := by
        have h1 := (div_le_one hn).mpr hl
        linarith
      show min 100 _ = _
      rw [min_eq_right hb]
      ring

/-- C8: a spawn-admission check refuses, leaving the whole state (in
particular the active set, the generated counter and the last-spawn
timestamp) unchanged, whenever the elapsed real time since the last
spawn is below the freshly drawn gap `uniform(1,3) / factor(hour)`, or
whenever the active count is at or above the configured maximum; a
successful spawn requires both conditions false. -/
theorem claim_C8 (M : MathModel) (st : SimState) (tiempo_actual : ℚ) (g : GeneracionDraws) :
    (tiempo_actual - st.tiempo_ultima_generacion <
        g.intervalo_base / (obtener_patron_horario_actual st.hora_simulada).factor →
      generar_vehiculo_inteligente M st tiempo_actual g = (st, false)) ∧
    (st.config.max_vehiculos ≤ (st.vehiculos.length : ℤ) →
      generar_vehiculo_inteligente M st tiempo_actual g = (st, false)) ∧
    ((generar_vehiculo_inteligente M st tiempo_actual g).2 = true →
      g.intervalo_base / (obtener_patron_horario_actual st.hora_simulada).factor ≤
        tiempo_actual - st.tiempo_ultima_generacion ∧
      (st.vehiculos.length : ℤ) < st.config.max_vehiculos) := by
  refine ⟨?_, ?_, ?_⟩
  · intro h
    simp only [generar_vehiculo_inteligente]
    rw [if_pos h]
  · intro h
    simp only [generar_vehiculo_inteligente]
    split <;> rfl
  · intro h
    constructor
    · by_contra hlt
      push_neg at hlt
      have heq : generar_vehiculo_inteligente M st tiempo_actual g = (st, false) := by
        simp only [generar_vehiculo_inteligente]
        rw [if_pos hlt]
      rw [heq] at h
      exact absurd h (by simp)
    · by_contra hge
      push_neg at hge
      have heq : generar_vehiculo_inteligente M st tiempo_actual g = (st, false) := by
        simp only [generar_vehiculo_inteligente]
        split <;> rfl
      rw [heq] at h
      exact absurd h (by simp)

/-- Witness for C8: at time 0, no time has elapsed since the sample
state's last spawn, so the admission check refuses and the state is
returned unchanged. -/
theorem claim_C8_witness :
    generar_vehiculo_inteligente mathEjemplo estadoEjemplo 0 drawsEjemplo =
      (estadoEjemplo, false) :=
  (claim_C8 mathEjemplo estadoEjemplo 0 drawsEjemplo).1
    (by norm_num [estadoEjemplo, SimulacionTrafico.init, obtener_patron_horario_actual,
      patron_manana, drawsEjemplo])

/-- `_mover` only writes the position. -/
theorem mover_velocidad (M : MathModel) (v : Vehiculo) (ruido : ℚ) :
    (Vehiculo.mover M v ruido).velocidad_actual = v.velocidad_actual := rfl

/-- `_aplicar_comportamiento_especial` never touches the current
speed. -/
theorem aplicar_comportamiento_velocidad (v : Vehiculo) (rP dP : ℚ) :
    (Vehiculo.aplicar_comportamiento_especial v rP dP).velocidad_actual =
      v.velocidad_actual := by
  simp only [Vehiculo.aplicar_comportamiento_especial]
  split <;> split <;> rfl

/-- `_aplicar_comportamiento_especial` never touches the behaviour
profile. -/
theorem aplicar_comportamiento_comportamiento (v : Vehiculo) (rP dP : ℚ) :
    (Vehiculo.aplicar_comportamiento_especial v rP dP).comportamiento =
      v.comportamiento := by
  simp only [Vehiculo.aplicar_comportamiento_especial]
  split <;> split <;> rfl

/-- `_actualizar_direccion` only writes the heading. -/
theorem actualizar_direccion_velocidad (M : MathModel) (v : Vehiculo) :
    (Vehiculo.actualizar_direccion M v).velocidad_actual = v.velocidad_actual := by
  simp only [Vehiculo.actualizar_direccion]
  split <;> rfl

/-- `_actualizar_direccion` never touches the behaviour profile. -/
theorem actualizar_direccion_comportamiento (M : MathModel) (v : Vehiculo) :
    (Vehiculo.actualizar_direccion M v).comportamiento = v.comportamiento := by
  simp only [Vehiculo.actualizar_direccion]
  split <;> rfl

/-- A full vehicle update that keeps the vehicle keeps its speed
non-negative, for every perceived environment and every draw. -/
theorem actualizar_some_nonneg (M : MathModel) (v : Vehiculo) (otros : List Vehiculo)
    (semaforos : List Semaforo) (t rP dP ruido : ℚ)
    (h0 : 0 ≤ v.velocidad_actual) (ha : 0 ≤ v.comportamiento.agresividad) :
    ∀ w, Vehiculo.actualizar M v otros semaforos t rP dP ruido = some w →
      0 ≤ w.velocidad_actual := by
  intro w hw
  simp only [Vehiculo.actualizar] at hw
  split at hw
  · exact absurd hw (by simp)
  · split at hw
    · exact absurd hw (by simp)
    · next va heq =>
        have hva : va.velocidad_actual = v.velocidad_actual ∧
            va.comportamiento = v.comportamiento := by
          split at heq
          · split at heq
            · exact absurd heq (by simp)
            · simp only [Option.some.injEq] at heq
              subst heq
              constructor
              · split <;> rw [actualizar_direccion_velocidad]
              · split <;> rw [actualizar_direccion_comportamiento]
          · simp only [Option.some.injEq] at heq
            subst heq
            exact ⟨rfl, rfl⟩
        simp only [Option.some.injEq] at hw
        subst hw
        simp only [mover_velocidad]
        split
        · exact actualizar_velocidad_nonneg _
            (by rw [aplicar_comportamiento_velocidad]; exact hva.1 ▸ h0)
            (by rw [aplicar_comportamiento_comportamiento]; exact hva.2 ▸ ha)
        · exact actualizar_velocidad_nonneg _
            (by rw [aplicar_comportamiento_velocidad]; exact hva.1 ▸ h0)
            (by rw [aplicar_comportamiento_comportamiento]; exact hva.2 ▸ ha)

/-- C10: a vehicle's speed is exactly 0 at creation and stays
non-negative across any single update step — whatever the target
speeds, lights and neighbouring vehicles involved (assuming the
constructor-guaranteed non-negative aggressiveness trait). -/
theorem claim_C10 (M : MathModel) (tipo : TipoVehiculo) (posicion : Punto) (calle : Calle)
    (t0 : ℚ) (g : GeneracionDraws) (v : Vehiculo) (otros : List Vehiculo)
    (semaforos : List Semaforo) (t rP dP ruido : ℚ) :
    (Vehiculo.init M tipo posicion calle t0 g).velocidad_actual = 0 ∧
    (0 ≤ v.velocidad_actual → 0 ≤ v.comportamiento.agresividad →
      0 ≤ ((Vehiculo.actualizar M v otros semaforos t rP dP ruido).getD v).velocidad_actual) := by
  refine ⟨rfl, ?_⟩
  intro h0 ha
  cases hw : Vehiculo.actualizar M v otros semaforos t rP dP ruido with
  | none => exact h0
  | some w => exact actualizar_some_nonneg M v otros semaforos t rP dP ruido h0 ha w hw

/-- Witness for C10: the sample vehicle is created with speed 0, and
one update of the routed sample vehicle leaves its speed
non-negative. -/
theorem claim_C10_witness :
    (Vehiculo.init mathEjemplo TipoVehiculo.AUTO ⟨0, 0⟩ calleEjemplo 0
      drawsEjemplo).velocidad_actual = 0 ∧
    0 ≤ ((Vehiculo.actualizar mathEjemplo vehiculoConRuta [] [] 0 1 0 0).getD
      vehiculoConRuta).velocidad_actual :=
  ⟨(claim_C10 mathEjemplo TipoVehiculo.AUTO ⟨0, 0⟩ calleEjemplo 0 drawsEjemplo
      vehiculoConRuta [] [] 0 1 0 0).1,
   (claim_C10 mathEjemplo TipoVehiculo.AUTO ⟨0, 0⟩ calleEjemplo 0 drawsEjemplo
      vehiculoConRuta [] [] 0 1 0 0).2 (by decide)
     (by norm_num [vehiculoConRuta, vehiculoEjemplo, Vehiculo.establecer_ruta, Vehiculo.init,
       obtener_comportamiento, drawsEjemplo])⟩
